import Mathlib

/-!
Shallow embedding of `scripts/generate_audio_edge_tts.py`.

The script holds two insertion-ordered tables (`BEGIN_TEXT`, `END_TEXT`)
mapping keys to narration strings, a trailing-silence table
(`TRAILING_SILENCE`), and two functions: `generate_one`, which either prints
a dry-run line or synthesizes audio (optionally post-processing the result
with ffmpeg through a temporary file), and `main`, which builds the list of
generation tasks (honouring the `--only` filter) and runs them one after
another.

Python dicts preserve insertion order, so each table is embedded as an
association list `List (String × _)`.  Side effects of `generate_one`
(printing, directory creation, temporary-file creation, the network save of
the TTS service, the ffmpeg subprocess, unlinking) are embedded as an
explicit trace of `Effect`s; the ffmpeg subprocess may fail, which is
modelled by a boolean `ffmpeg_ok` input (on failure the Python code raises
out of `subprocess.run(check=True)`, the `finally` block still unlinks the
temporary file, and the exception propagates, modelled as `ok := false`).
Filesystem contents are a list of paths; `applyTrace` replays a trace on it.
`SystemExit` in `main` is modelled with `Except String`.
-/

namespace EdgeTTS

/-- A filesystem path, as its list of components below the repository root. -/
abbrev FsPath := List String

def pathStr (p : FsPath) : String := String.intercalate "/" p

/-- `OUT_BEGIN_DIR = ROOT_DIR / "assets" / "audio"` (root components elided). -/
def OUT_BEGIN_DIR : FsPath := ["assets", "audio"]

/-- `OUT_END_DIR = ROOT_DIR / "assets" / "audio_end"`. -/
def OUT_END_DIR : FsPath := ["assets", "audio_end"]

def DEFAULT_VOICE : String := "zh-CN-YunjianNeural"
def DEFAULT_PITCH : String := "-20Hz"
def DEFAULT_RATE : String := "-20%"
def DEFAULT_VOLUME : String := "+100%"
def DEFAULT_BOOST_DB : Int := 10

/-- `TRAILING_SILENCE`: trailing silence in seconds for specific keys. -/
def TRAILING_SILENCE : List (String × Int) := [("night", 5)]

/-- `BEGIN_TEXT`, in the insertion order of the Python dict literal. -/
def BEGIN_TEXT : List (String × String) := [
  ("night", "天黑请闭眼。"),
  ("night_end", "天亮了，倒数三秒闭眼举手上警，三，二，一。睁眼。"),
  ("wolf", "狼人请睁眼，互相确认身份后，请选择要击杀的玩家。"),
  ("wolf_queen", "狼美人请睁眼，请选择魅惑的对象。"),
  ("dark_wolf_king", "黑狼王请睁眼，请确认开枪状态。"),
  ("nightmare", "梦魇请睁眼，请选择要封锁的玩家。"),
  ("gargoyle", "石像鬼请睁眼，请选择要查验的玩家。"),
  ("wolf_robot", "机械狼请睁眼，请选择要学习的玩家。"),
  ("guard", "守卫请睁眼，请选择要守护的玩家。"),
  ("witch", "女巫请睁眼，请选择要使用的药水。"),
  ("hunter", "猎人请睁眼，请确认开枪状态。"),
  ("seer", "预言家请睁眼，请选择要查验的玩家。"),
  ("magician", "魔术师请睁眼，请选择要交换的两名玩家。"),
  ("psychic", "通灵师请睁眼，请选择查验的玩家。"),
  ("slacker", "混子请睁眼，请选择你的榜样。"),
  ("dreamcatcher", "摄梦人请睁眼，请选择摄梦对象。"),
  ("pure_white", "纯白之女请睁眼，请选择要查验的玩家。"),
  ("wolf_witch", "狼巫请睁眼，请选择要查验的玩家。")]

/-- `END_TEXT`, in the insertion order of the Python dict literal. -/
def END_TEXT : List (String × String) := [
  ("wolf", "狼人请闭眼。"),
  ("wolf_queen", "狼美人请闭眼。"),
  ("dark_wolf_king", "黑狼王请闭眼。"),
  ("nightmare", "梦魇请闭眼。"),
  ("gargoyle", "石像鬼请闭眼。"),
  ("wolf_robot", "机械狼请闭眼。"),
  ("guard", "守卫请闭眼。"),
  ("witch", "女巫请闭眼。"),
  ("hunter", "猎人请闭眼。"),
  ("seer", "预言家请闭眼。"),
  ("magician", "魔术师请闭眼。"),
  ("psychic", "通灵师请闭眼。"),
  ("slacker", "混子请闭眼。"),
  ("dreamcatcher", "摄梦人请闭眼。"),
  ("pure_white", "纯白之女请闭眼。"),
  ("wolf_witch", "狼巫请闭眼。")]

/-- Python `dict.get(k, d)` on an association list (keys are unique). -/
def dictGet {α : Type} (m : List (String × α)) (k : String) (d : α) : α :=
  match m with
  | [] => d
  | (k2, v) :: rest => if k = k2 then v else dictGet rest k d

/-- The keys of a table, in insertion order. -/
def keysOf {α : Type} (m : List (String × α)) : List String := m.map Prod.fst

/-- One observable side effect of `generate_one`. -/
inductive Effect where
  /-- `print(line)` -/
  | printLine (line : String)
  /-- `out_path.parent.mkdir(parents=True, exist_ok=True)` -/
  | mkdirParents (dir : FsPath)
  /-- `tempfile.NamedTemporaryFile(suffix=".mp3", delete=False)` -/
  | createTemp (path : FsPath)
  /-- `edge_tts.Communicate(text, voice, pitch=..., rate=..., volume=...).save(path)`:
  the network call to the TTS service, writing the audio file at `path`. -/
  | ttsSave (text voice pitch rate volume : String) (path : FsPath)
  /-- `subprocess.run(cmd, check=True, ...)`; on success ffmpeg writes `out`,
  on failure (`ok = false`) `subprocess.run` raises. -/
  | runFfmpeg (cmd : List String) (out : FsPath) (ok : Bool)
  /-- `tmp_path.unlink(missing_ok=True)` -/
  | unlink (path : FsPath)
  deriving DecidableEq, Repr

/-- Result of one `generate_one` call: the effect trace it performed and
whether it returned normally (`ok = false` means an exception propagated). -/
structure GenResult where
  trace : List Effect
  ok : Bool
  deriving DecidableEq, Repr

/-- `needs_ffmpeg = silence_seconds > 0 or boost_db > 0`. -/
def needsFfmpeg (key : String) (boost_db : Int) : Bool :=
  dictGet TRAILING_SILENCE key 0 > 0 || boost_db > 0

/-- The ffmpeg command list built by `generate_one`. -/
def ffmpegCmd (tmp_path out_path : FsPath) (silence_seconds boost_db : Int) :
    List String :=
  ["ffmpeg", "-y", "-i", pathStr tmp_path] ++
  (if silence_seconds > 0 then
    ["-f", "lavfi", "-t", toString silence_seconds, "-i",
     "anullsrc=r=24000:cl=mono"] ++
    (if boost_db ≠ 0 then
      ["-filter_complex",
       "[0:a]volume=" ++ toString boost_db ++
         "dB[boosted];[boosted][1:a]concat=n=2:v=0:a=1"]
    else
      ["-filter_complex", "[0:a][1:a]concat=n=2:v=0:a=1"])
  else
    ["-af", "volume=" ++ toString boost_db ++ "dB"]) ++
  ["-b:a", "48k", pathStr out_path]

/-- The `parts` list built on the dry-run path (`if silence:` and
`if boost_db:` use Python truthiness, i.e. nonzero). -/
def dryRunParts (key : String) (boost_db : Int) : List String :=
  (if dictGet TRAILING_SILENCE key 0 ≠ 0 then
    ["+" ++ toString (dictGet TRAILING_SILENCE key 0) ++ "s silence"]
  else []) ++
  (if boost_db ≠ 0 then ["+" ++ toString boost_db ++ "dB boost"] else [])

/-- The line printed on the dry-run path. -/
def dryRunLine (key : String) (out_path : FsPath) (boost_db : Int) : String :=
  let parts := dryRunParts key boost_db
  let suffix :=
    if parts ≠ [] then " (" ++ String.intercalate ", " parts ++ ")" else ""
  "[dry-run] -> " ++ pathStr out_path ++ suffix

/-- The `parts` list printed after a successful ffmpeg post-processing. -/
def generatedParts (silence_seconds boost_db : Int) : List String :=
  (if silence_seconds ≠ 0 then
    ["+" ++ toString silence_seconds ++ "s silence"] else []) ++
  (if boost_db ≠ 0 then ["+" ++ toString boost_db ++ "dB"] else [])

/-- The line printed after a successful ffmpeg post-processing. -/
def generatedLine (out_path : FsPath) (silence_seconds boost_db : Int) :
    String :=
  "Generated " ++ pathStr out_path ++ " (" ++
    String.intercalate ", " (generatedParts silence_seconds boost_db) ++ ")"

/-- `generate_one(key, text, voice, pitch, rate, volume, out_path, dry_run,
boost_db)`.  The extra inputs model the environment: `tmp_path` is the name
the OS hands to `NamedTemporaryFile`, and `ffmpeg_ok` tells whether the
ffmpeg subprocess exits with status 0 (when it is invoked at all). -/
def generate_one (key text voice pitch rate volume : String)
    (out_path : FsPath) (dry_run : Bool) (boost_db : Int)
    (tmp_path : FsPath) (ffmpeg_ok : Bool) : GenResult :=
  if dry_run then
    { trace := [Effect.printLine (dryRunLine key out_path boost_db)],
      ok := true }
  else
    let silence_seconds := dictGet TRAILING_SILENCE key 0
    if needsFfmpeg key boost_db then
      let cmd := ffmpegCmd tmp_path out_path silence_seconds boost_db
      if ffmpeg_ok then
        { trace := [Effect.mkdirParents out_path.dropLast,
            Effect.createTemp tmp_path,
            Effect.ttsSave text voice pitch rate volume tmp_path,
            Effect.runFfmpeg cmd out_path true,
            Effect.printLine (generatedLine out_path silence_seconds boost_db),
            Effect.unlink tmp_path],
          ok := true }
      else
        { trace := [Effect.mkdirParents out_path.dropLast,
            Effect.createTemp tmp_path,
            Effect.ttsSave text voice pitch rate volume tmp_path,
            Effect.runFfmpeg cmd out_path false,
            Effect.unlink tmp_path],
          ok := false }
    else
      { trace := [Effect.mkdirParents out_path.dropLast,
          Effect.ttsSave text voice pitch rate volume out_path,
          Effect.printLine ("Generated " ++ pathStr out_path)],
        ok := true }

/-- Replay one effect on the set of files present (a list of paths). -/
def applyEffect (fs : List FsPath) : Effect → List FsPath
  | Effect.printLine _ => fs
  | Effect.mkdirParents _ => fs
  | Effect.createTemp p => p :: fs
  | Effect.ttsSave _ _ _ _ _ p => p :: fs
  | Effect.runFfmpeg _ out ok => if ok then out :: fs else fs
  | Effect.unlink p => fs.filter (fun q => q ≠ p)

/-- Replay a whole trace on the filesystem. -/
def applyTrace (fs : List FsPath) (tr : List Effect) : List FsPath :=
  tr.foldl applyEffect fs

/-- The parsed command-line arguments (after `only = args.only.strip()`). -/
structure Args where
  voice : String
  pitch : String
  rate : String
  volume : String
  boost : Int
  only : String
  dry_run : Bool
  list_voices : Bool
  deriving DecidableEq, Repr

/-- One pending `generate_one` invocation as built by `main`. -/
structure Task where
  key : String
  text : String
  voice : String
  pitch : String
  rate : String
  volume : String
  out_path : FsPath
  dry_run : Bool
  boost : Int
  deriving DecidableEq, Repr

/-- The loop body keeps an entry unless `only and only != key` holds. -/
def keepKey (only key : String) : Bool :=
  if only ≠ "" ∧ only ≠ key then false else true

def beginTask (a : Args) (kt : String × String) : Task :=
  { key := kt.1, text := kt.2, voice := a.voice, pitch := a.pitch,
    rate := a.rate, volume := a.volume,
    out_path := OUT_BEGIN_DIR ++ [kt.1 ++ ".mp3"],
    dry_run := a.dry_run, boost := a.boost }

def endTask (a : Args) (kt : String × String) : Task :=
  { key := kt.1, text := kt.2, voice := a.voice, pitch := a.pitch,
    rate := a.rate, volume := a.volume,
    out_path := OUT_END_DIR ++ [kt.1 ++ ".mp3"],
    dry_run := a.dry_run, boost := a.boost }

/-- The `tasks` list built by `main`: all surviving `BEGIN_TEXT` entries in
insertion order, then all surviving `END_TEXT` entries in insertion order. -/
def tasksOf (a : Args) : List Task :=
  (BEGIN_TEXT.filter (fun kt => keepKey a.only kt.1)).map (beginTask a) ++
  (END_TEXT.filter (fun kt => keepKey a.only kt.1)).map (endTask a)

/-- `main` up to the point where the tasks start running: with
`--list-voices` it returns before building tasks; otherwise it raises
`SystemExit` (a nonzero exit with a message, modelled as `Except.error`)
exactly when the task list is empty, else yields the tasks to run. -/
def mainResult (a : Args) : Except String (List Task) :=
  if a.list_voices then Except.ok []
  else
    let tasks := tasksOf a
    if tasks.isEmpty then
      Except.error ("No tasks to run (only='" ++ a.only ++ "').")
    else
      Except.ok tasks

/-- Run one task (`await t`). -/
def runTask (t : Task) (tmp_path : FsPath) (ffmpeg_ok : Bool) : GenResult :=
  generate_one t.key t.text t.voice t.pitch t.rate t.volume t.out_path
    t.dry_run t.boost tmp_path ffmpeg_ok

/-- `for t in tasks: await t` — tasks run strictly one after another; a task
that raises (`ok = false`, e.g. a failing `subprocess.run(check=True)`)
propagates its exception out of `main`, so the batch halts right after that
task's effects and no later task runs.  Returns the combined effect trace
and whether the whole batch completed. -/
def runAll (tasks : List Task) (tmp_path : FsPath) (ffmpeg_ok : Bool) :
    List Effect × Bool :=
  match tasks with
  | [] => ([], true)
  | t :: rest =>
    let r := runTask t tmp_path ffmpeg_ok
    if r.ok then
      let rem := runAll rest tmp_path ffmpeg_ok
      (r.trace ++ rem.1, rem.2)
    else
      (r.trace, false)

/-- The `--only` filter value together with the default values of the other
flags ( `argparse` defaults; `--dry-run` and `--list-voices` default off). -/
def baseArgs (only : String) : Args :=
  { voice := DEFAULT_VOICE, pitch := DEFAULT_PITCH, rate := DEFAULT_RATE,
    volume := DEFAULT_VOLUME, boost := DEFAULT_BOOST_DB, only := only,
    dry_run := false, list_voices := false }

/-- C6: in dry-run mode, `generate_one` performs exactly one effect — printing
one line — and returns normally: no file or directory is created and no
network or subprocess effect occurs, for every key, destination and boost. -/
theorem dry_run_prints_one_line_only (key text voice pitch rate volume : String)
    (out_path : FsPath) (boost_db : Int) (tmp_path : FsPath)
    (ffmpeg_ok : Bool) :
    generate_one key text voice pitch rate volume out_path true boost_db
        tmp_path ffmpeg_ok =
      { trace := [Effect.printLine (dryRunLine key out_path boost_db)],
        ok := true } := rfl

/-- C5: with boost 0 and no configured trailing silence for the key, a real
run of `generate_one` makes no ffmpeg call and no temporary file: the TTS
service writes directly to the final destination path. -/
theorem boost_zero_no_silence_direct_save
    (key text voice pitch rate volume : String) (out_path tmp_path : FsPath)
    (ffmpeg_ok : Bool) (h : dictGet TRAILING_SILENCE key 0 = 0) :
    generate_one key text voice pitch rate volume out_path false 0 tmp_path
        ffmpeg_ok =
      { trace := [Effect.mkdirParents out_path.dropLast,
          Effect.ttsSave text voice pitch rate volume out_path,
          Effect.printLine ("Generated " ++ pathStr out_path)],
        ok := true } := by
  simp [generate_one, needsFfmpeg, h]

/-- Witness for C5 at the key `"wolf"` (no configured silence). -/
theorem boost_zero_no_silence_direct_save_witness :
    generate_one "wolf" "狼人请闭眼。" DEFAULT_VOICE DEFAULT_PITCH DEFAULT_RATE
        DEFAULT_VOLUME (OUT_END_DIR ++ ["wolf.mp3"]) false 0 ["tmp", "t.mp3"]
        true =
      { trace := [Effect.mkdirParents (OUT_END_DIR ++ ["wolf.mp3"]).dropLast,
          Effect.ttsSave "狼人请闭眼。" DEFAULT_VOICE DEFAULT_PITCH DEFAULT_RATE
            DEFAULT_VOLUME (OUT_END_DIR ++ ["wolf.mp3"]),
          Effect.printLine
            ("Generated " ++ pathStr (OUT_END_DIR ++ ["wolf.mp3"]))],
        ok := true } :=
  boost_zero_no_silence_direct_save "wolf" "狼人请闭眼。" DEFAULT_VOICE
    DEFAULT_PITCH DEFAULT_RATE DEFAULT_VOLUME (OUT_END_DIR ++ ["wolf.mp3"])
    ["tmp", "t.mp3"] true (by decide)

/-- C7: the trailing-silence table maps exactly the event key `"night"` to a
duration (5 seconds); every other key has no configured silence. -/
theorem trailing_silence_only_night :
    TRAILING_SILENCE = [("night", 5)] ∧
    ∀ k, k ≠ "night" → dictGet TRAILING_SILENCE k 0 = 0 := by
  refine ⟨rfl, ?_⟩
  intro k hk
  simp [TRAILING_SILENCE, dictGet, hk]

/-- Witness for C7 at the key `"wolf"`. -/
theorem trailing_silence_only_night_witness :
    dictGet TRAILING_SILENCE "wolf" 0 = 0 :=
  trailing_silence_only_night.2 "wolf" (by decide)

/-- C4: whenever a real run of `generate_one` goes through ffmpeg
post-processing, the temporary file is gone from the filesystem when the call
returns — both on the success path and when the ffmpeg step fails — whatever
the filesystem held before. -/
theorem temp_file_removed (key text voice pitch rate volume : String)
    (out_path tmp_path : FsPath) (boost_db : Int) (ffmpeg_ok : Bool)
    (fs : List FsPath) (h : needsFfmpeg key boost_db = true) :
    tmp_path ∉ applyTrace fs
      (generate_one key text voice pitch rate volume out_path false boost_db
        tmp_path ffmpeg_ok).trace := by
  cases ffmpeg_ok <;>
    simp [generate_one, h, applyTrace, applyEffect, List.mem_filter]

/-- Witness for C4 at the key `"night"`, on the failing and the succeeding
ffmpeg path. -/
theorem temp_file_removed_witness :
    (["tmp", "a.mp3"] : FsPath) ∉ applyTrace [["tmp", "a.mp3"]]
      (generate_one "night" "天黑请闭眼。" DEFAULT_VOICE DEFAULT_PITCH
        DEFAULT_RATE DEFAULT_VOLUME (OUT_BEGIN_DIR ++ ["night.mp3"]) false 10
        ["tmp", "a.mp3"] false).trace ∧
    (["tmp", "a.mp3"] : FsPath) ∉ applyTrace []
      (generate_one "night" "天黑请闭眼。" DEFAULT_VOICE DEFAULT_PITCH
        DEFAULT_RATE DEFAULT_VOLUME (OUT_BEGIN_DIR ++ ["night.mp3"]) false 10
        ["tmp", "a.mp3"] true).trace :=
  ⟨temp_file_removed "night" "天黑请闭眼。" DEFAULT_VOICE DEFAULT_PITCH
      DEFAULT_RATE DEFAULT_VOLUME (OUT_BEGIN_DIR ++ ["night.mp3"])
      ["tmp", "a.mp3"] 10 false [["tmp", "a.mp3"]] (by decide),
    temp_file_removed "night" "天黑请闭眼。" DEFAULT_VOICE DEFAULT_PITCH
      DEFAULT_RATE DEFAULT_VOLUME (OUT_BEGIN_DIR ++ ["night.mp3"])
      ["tmp", "a.mp3"] 10 true [] (by decide)⟩

/-- C10: for a key with no configured silence and a strictly negative boost,
a real run skips ffmpeg entirely (the TTS output is saved directly to the
destination, no gain applied), yet a dry run of the same arguments prints a
line whose parts report that the boost would be applied. -/
theorem negative_boost_skips_ffmpeg_but_dry_run_reports_boost
    (key text voice pitch rate volume : String) (out_path tmp_path : FsPath)
    (ffmpeg_ok : Bool) (boost_db : Int) (hb : boost_db < 0)
    (hs : dictGet TRAILING_SILENCE key 0 = 0) :
    generate_one key text voice pitch rate volume out_path false boost_db
        tmp_path ffmpeg_ok =
      { trace := [Effect.mkdirParents out_path.dropLast,
          Effect.ttsSave text voice pitch rate volume out_path,
          Effect.printLine ("Generated " ++ pathStr out_path)],
        ok := true } ∧
    dryRunParts key boost_db = ["+" ++ toString boost_db ++ "dB boost"] ∧
    (generate_one key text voice pitch rate volume out_path true boost_db
        tmp_path ffmpeg_ok).trace =
      [Effect.printLine (dryRunLine key out_path boost_db)] := by
  have hb0 : boost_db ≠ 0 := by omega
  have hng : ¬ boost_db > 0 := by omega
  refine ⟨?_, ?_, rfl⟩
  · simp [generate_one, needsFfmpeg, hs, hng]
  · simp [dryRunParts, hs, hb0]

/-- Witness for C10 at the key `"wolf"` with boost `-5`. -/
theorem negative_boost_witness :
    generate_one "wolf" "狼人请闭眼。" DEFAULT_VOICE DEFAULT_PITCH DEFAULT_RATE
        DEFAULT_VOLUME (OUT_END_DIR ++ ["wolf.mp3"]) false (-5)
        ["tmp", "t.mp3"] true =
      { trace := [Effect.mkdirParents (OUT_END_DIR ++ ["wolf.mp3"]).dropLast,
          Effect.ttsSave "狼人请闭眼。" DEFAULT_VOICE DEFAULT_PITCH DEFAULT_RATE
            DEFAULT_VOLUME (OUT_END_DIR ++ ["wolf.mp3"]),
          Effect.printLine
            ("Generated " ++ pathStr (OUT_END_DIR ++ ["wolf.mp3"]))],
        ok := true } ∧
    dryRunParts "wolf" (-5) = ["+" ++ toString (-5 : Int) ++ "dB boost"] ∧
    (generate_one "wolf" "狼人请闭眼。" DEFAULT_VOICE DEFAULT_PITCH DEFAULT_RATE
        DEFAULT_VOLUME (OUT_END_DIR ++ ["wolf.mp3"]) true (-5)
        ["tmp", "t.mp3"] true).trace =
      [Effect.printLine (dryRunLine "wolf" (OUT_END_DIR ++ ["wolf.mp3"]) (-5))] :=
  negative_boost_skips_ffmpeg_but_dry_run_reports_boost "wolf" "狼人请闭眼。"
    DEFAULT_VOICE DEFAULT_PITCH DEFAULT_RATE DEFAULT_VOLUME
    (OUT_END_DIR ++ ["wolf.mp3"]) ["tmp", "t.mp3"] true (-5) (by decide)
    (by decide)

/-- With an empty (absent) filter, every entry of both tables survives. -/
lemma keepKey_empty (key : String) : keepKey "" key = true := by
  simp [keepKey]

/-- Every `generate_one` call whose ffmpeg subprocess (if any) succeeds
returns normally. -/
lemma runTask_ok_true (t : Task) (tmp_path : FsPath) :
    (runTask t tmp_path true).ok = true := by
  simp only [runTask, generate_one]
  split
  · rfl
  · split <;> rfl

/-- When every task of the batch returns normally, the batch completes and
its trace is the concatenation of the per-task traces in list order. -/
lemma runAll_all_ok (tasks : List Task) (tmp_path : FsPath) (ffmpeg_ok : Bool)
    (h : ∀ t ∈ tasks, (runTask t tmp_path ffmpeg_ok).ok = true) :
    runAll tasks tmp_path ffmpeg_ok =
      ((tasks.map (fun t => (runTask t tmp_path ffmpeg_ok).trace)).flatten,
        true) := by
  induction tasks with
  | nil => rfl
  | cons t rest ih =>
    have ht := h t (List.mem_cons_self t rest)
    simp [runAll, ht, ih (fun t2 ht2 => h t2 (List.mem_cons_of_mem t ht2))]

/-- Whatever fails, the trace the batch produces is the concatenation, in
list order, of the complete traces of the first `n` tasks for some `n`: one
task's effects finish before the next task starts, and a failure only cuts
the list short, never reorders or interleaves it. -/
lemma runAll_trace_take (tasks : List Task) (tmp_path : FsPath)
    (ffmpeg_ok : Bool) :
    ∃ n, n ≤ tasks.length ∧
      (runAll tasks tmp_path ffmpeg_ok).1 =
        ((tasks.take n).map
          (fun t => (runTask t tmp_path ffmpeg_ok).trace)).flatten := by
  induction tasks with
  | nil => exact ⟨0, by simp [runAll]⟩
  | cons t rest ih =>
    by_cases h : (runTask t tmp_path ffmpeg_ok).ok
    · obtain ⟨n, hn, htr⟩ := ih
      exact ⟨n + 1, by simpa using hn, by simp [runAll, h, htr]⟩
    · exact ⟨1, by simp, by simp [runAll, h]⟩

/-- C8: in a run without a filter, the task list is all begin-table entries
in insertion order followed by all end-table entries in insertion order;
when no step fails the batch completes and its trace is the concatenation of
the per-task traces in exactly that order; and in every case (a failing
ffmpeg step included, which halts the batch) the trace produced is the
in-order concatenation of the complete traces of the first `n` tasks — one
request at a time, never interleaved, never reordered. -/
theorem no_filter_sequential_order (voice pitch rate volume : String)
    (boost : Int) (dry lv : Bool) (tmp_path : FsPath) (ffmpeg_ok : Bool) :
    let a : Args := ⟨voice, pitch, rate, volume, boost, "", dry, lv⟩
    tasksOf a = BEGIN_TEXT.map (beginTask a) ++ END_TEXT.map (endTask a) ∧
    (tasksOf a).map Task.key = keysOf BEGIN_TEXT ++ keysOf END_TEXT ∧
    runAll (tasksOf a) tmp_path true =
      (((BEGIN_TEXT.map (beginTask a) ++ END_TEXT.map (endTask a)).map
        (fun t => (runTask t tmp_path true).trace)).flatten, true) ∧
    (∃ n, n ≤ (tasksOf a).length ∧
      (runAll (tasksOf a) tmp_path ffmpeg_ok).1 =
        (((tasksOf a).take n).map
          (fun t => (runTask t tmp_path ffmpeg_ok).trace)).flatten) := by
  intro a
  have h1 : tasksOf a = BEGIN_TEXT.map (beginTask a) ++ END_TEXT.map (endTask a) := by
    simp [tasksOf, keepKey_empty]
  refine ⟨h1, ?_, ?_, runAll_trace_take _ _ _⟩
  · simp [h1, keysOf, List.map_map, beginTask, endTask, Function.comp_def]
  · rw [h1]
    exact runAll_all_ok _ _ _ (fun t _ => runTask_ok_true t tmp_path)

/-- C9: every task built by `main` either stems from the begin table — and
then writes `<key>.mp3` directly under the fixed begin-audio directory — or
stems from the end table — and then writes `<key>.mp3` directly under the
fixed end-audio directory; the two directories differ. -/
theorem out_path_two_fixed_dirs (a : Args) (t : Task) (h : t ∈ tasksOf a) :
    ((t ∈ (BEGIN_TEXT.filter (fun kt => keepKey a.only kt.1)).map (beginTask a) ∧
      t.out_path = OUT_BEGIN_DIR ++ [t.key ++ ".mp3"]) ∨
     (t ∈ (END_TEXT.filter (fun kt => keepKey a.only kt.1)).map (endTask a) ∧
      t.out_path = OUT_END_DIR ++ [t.key ++ ".mp3"])) ∧
    OUT_BEGIN_DIR ≠ OUT_END_DIR := by
  refine ⟨?_, by decide⟩
  simp only [tasksOf] at h
  rcases List.mem_append.mp h with h | h
  · left
    refine ⟨h, ?_⟩
    rcases List.mem_map.mp h with ⟨kt, _, rfl⟩
    rfl
  · right
    refine ⟨h, ?_⟩
    rcases List.mem_map.mp h with ⟨kt, _, rfl⟩
    rfl

/-- Witness for C9 at the begin-table task for `"night"`. -/
theorem out_path_two_fixed_dirs_witness :
    (((beginTask (baseArgs "night") ("night", "天黑请闭眼。")) ∈
        (BEGIN_TEXT.filter
          (fun kt => keepKey (baseArgs "night").only kt.1)).map
          (beginTask (baseArgs "night")) ∧
      (beginTask (baseArgs "night") ("night", "天黑请闭眼。")).out_path =
        OUT_BEGIN_DIR ++
          [(beginTask (baseArgs "night") ("night", "天黑请闭眼。")).key ++ ".mp3"]) ∨
     ((beginTask (baseArgs "night") ("night", "天黑请闭眼。")) ∈
        (END_TEXT.filter
          (fun kt => keepKey (baseArgs "night").only kt.1)).map
          (endTask (baseArgs "night")) ∧
      (beginTask (baseArgs "night") ("night", "天黑请闭眼。")).out_path =
        OUT_END_DIR ++
          [(beginTask (baseArgs "night") ("night", "天黑请闭眼。")).key ++ ".mp3"])) ∧
    OUT_BEGIN_DIR ≠ OUT_END_DIR :=
  out_path_two_fixed_dirs (baseArgs "night")
    (beginTask (baseArgs "night") ("night", "天黑请闭眼。")) (by decide)

/-- C3: a nonempty filter key occurring in neither table yields an empty
task list and the run terminates with `SystemExit` carrying the descriptive
message (a nonzero exit); moreover this is the only guarded error: `main`
produces an error exactly when the voice-listing switch is off and the task
list is empty. -/
theorem unmatched_filter_errors (voice pitch rate volume : String)
    (boost : Int) (dry : Bool) (k : String) (hk : k ≠ "")
    (hb : k ∉ keysOf BEGIN_TEXT) (he : k ∉ keysOf END_TEXT) :
    tasksOf ⟨voice, pitch, rate, volume, boost, k, dry, false⟩ = [] ∧
    mainResult ⟨voice, pitch, rate, volume, boost, k, dry, false⟩ =
      Except.error ("No tasks to run (only='" ++ k ++ "').") ∧
    (∀ a : Args, (∃ e, mainResult a = Except.error e) ↔
      a.list_voices = false ∧ tasksOf a = []) := by
  have hfil : ∀ (l : List (String × String)), k ∉ keysOf l →
      l.filter (fun kt => keepKey k kt.1) = [] := by
    intro l hl
    refine List.filter_eq_nil_iff.mpr ?_
    intro kt hkt
    have hne : k ≠ kt.1 := by
      intro hEq
      exact hl (hEq ▸ List.mem_map_of_mem Prod.fst hkt)
    simp [keepKey, hk, hne]
  have h1 : tasksOf ⟨voice, pitch, rate, volume, boost, k, dry, false⟩ = [] := by
    simp [tasksOf, hfil BEGIN_TEXT hb, hfil END_TEXT he]
  refine ⟨h1, by simp [mainResult, h1], ?_⟩
  intro a
  constructor
  · rintro ⟨e, he2⟩
    by_cases hlv : a.list_voices
    · simp [mainResult, hlv] at he2
    · refine ⟨by simpa using hlv, ?_⟩
      by_cases hemp : (tasksOf a).isEmpty
      · exact List.isEmpty_iff.mp hemp
      · simp [mainResult, hlv, hemp] at he2
  · rintro ⟨hlv, hemp⟩
    exact ⟨"No tasks to run (only='" ++ a.only ++ "')." ,
      by simp [mainResult, hlv, hemp]⟩

/-- Witness for C3 at the absent key `"foo"`. -/
theorem unmatched_filter_errors_witness :
    tasksOf (baseArgs "foo") = [] ∧
    mainResult (baseArgs "foo") =
      Except.error ("No tasks to run (only='" ++ "foo" ++ "').") :=
  ⟨(unmatched_filter_errors DEFAULT_VOICE DEFAULT_PITCH DEFAULT_RATE
      DEFAULT_VOLUME DEFAULT_BOOST_DB false "foo" (by decide) (by decide)
      (by decide)).1,
   (unmatched_filter_errors DEFAULT_VOICE DEFAULT_PITCH DEFAULT_RATE
      DEFAULT_VOLUME DEFAULT_BOOST_DB false "foo" (by decide) (by decide)
      (by decide)).2.1⟩

/-- A nonempty filter `k` keeps as many entries of a table as its key list
holds occurrences of `k`. -/
lemma length_filter_keepKey (k : String) (hk : k ≠ "")
    (l : List (String × String)) :
    (l.filter (fun kt => keepKey k kt.1)).length = (keysOf l).count k := by
  induction l with
  | nil => simp [keysOf]
  | cons kt rest ih =>
    by_cases h : k = kt.1
    · simp [List.filter_cons, keepKey, h, keysOf, List.count_cons] at *
      omega
    · simp [List.filter_cons, keepKey, hk, h, keysOf, List.count_cons,
        Ne.symm h] at *
      omega

/-- In a duplicate-free list the count of an element is its membership
indicator. -/
lemma count_eq_ite (k : String) (l : List String) (hn : l.Nodup) :
    l.count k = if k ∈ l then 1 else 0 := by
  by_cases h : k ∈ l
  · simp [h, List.count_eq_one_of_mem hn h]
  · simp [h, List.count_eq_zero.mpr h]

/-- C1 (counterexample): the key `"wolf"` is present in the begin table, yet
filtering by it builds two generation requests, not exactly one, because the
key also occurs in the end table. -/
theorem single_key_filter_two_tasks :
    "wolf" ∈ keysOf BEGIN_TEXT ∧
    (tasksOf (baseArgs "wolf")).length = 2 ∧
    (tasksOf (baseArgs "wolf")).length ≠ 1 := by decide

/-- C1 (amended): filtering by a nonempty key produces one generation
request per table containing the key — two requests for keys present in both
tables, one for keys present in exactly one. -/
theorem single_key_filter_one_task_per_table (voice pitch rate volume : String)
    (boost : Int) (dry lv : Bool) (k : String) (hk : k ≠ "") :
    (tasksOf ⟨voice, pitch, rate, volume, boost, k, dry, lv⟩).length =
      (if k ∈ keysOf BEGIN_TEXT then 1 else 0) +
      (if k ∈ keysOf END_TEXT then 1 else 0) := by
  have hnb : (keysOf BEGIN_TEXT).Nodup := by decide
  have hne : (keysOf END_TEXT).Nodup := by decide
  simp [tasksOf, length_filter_keepKey k hk, count_eq_ite k _ hnb,
    count_eq_ite k _ hne]

/-- Witness for the amended C1 at the key `"night"` (begin table only). -/
theorem single_key_filter_one_task_per_table_witness :
    (tasksOf ⟨DEFAULT_VOICE, DEFAULT_PITCH, DEFAULT_RATE, DEFAULT_VOLUME,
        DEFAULT_BOOST_DB, "night", false, false⟩).length =
      (if "night" ∈ keysOf BEGIN_TEXT then 1 else 0) +
      (if "night" ∈ keysOf END_TEXT then 1 else 0) :=
  single_key_filter_one_task_per_table DEFAULT_VOICE DEFAULT_PITCH
    DEFAULT_RATE DEFAULT_VOLUME DEFAULT_BOOST_DB false false "night"
    (by decide)

/-- C2 (counterexample): `"wolf"` is a key of both the begin table and the
end table, so the two key sets are not disjoint. -/
theorem begin_end_keys_share_wolf :
    "wolf" ∈ keysOf BEGIN_TEXT ∧ "wolf" ∈ keysOf END_TEXT := by decide

/-- C2 (amended): far from disjoint, the key set of the end table is
contained in the key set of the begin table. -/
theorem end_keys_subset_begin_keys :
    ∀ k ∈ keysOf END_TEXT, k ∈ keysOf BEGIN_TEXT := by
  have hall : (keysOf END_TEXT).all
      (fun k2 => decide (k2 ∈ keysOf BEGIN_TEXT)) = true := by decide
  intro k hk
  exact of_decide_eq_true (List.all_eq_true.mp hall k hk)

/-- Witness for the amended C2 at the key `"seer"`. -/
theorem end_keys_subset_begin_keys_witness :
    "seer" ∈ keysOf BEGIN_TEXT :=
  end_keys_subset_begin_keys "seer" (by decide)

end EdgeTTS
